import Mathlib

/-!
Shallow embedding of the query, pagination and aggregation core of the
`nesa-todo-backend` repository (`src/controllers/todoController.js`).

Timestamps are modelled as integers (milliseconds since the epoch, as JS
`Date` arithmetic produces).  A todo document read back from the store is
modelled by the fields the controller logic inspects: `status` (an
arbitrary string, since the store may hold anything) and an optional
`deadline` (`none` models an absent or falsy `deadline` field).  The
record store is external: the result sequence of a query (after
`orderBy`) is modelled as an input list, `count()` as its length, and the
`limit` and `startAfter` cursor skipping as `take` and `drop` on that
list.
-/

namespace NesaTodo

/-- A todo document as read from the store, restricted to the fields the
controller logic inspects. -/
structure Todo where
  id : String
  status : String
  deadline : Option Int
  deriving DecidableEq

/-- The three recognised status values (`todoController.js` line 75). -/
def validStatuses : List String := ["pending", "in-progress", "completed"]

/-- Milliseconds per day, `1000 * 60 * 60 * 24` from line 119. -/
def msPerDay : Int := 1000 * 60 * 60 * 24

/-- Ceiling division on integers, modelling `Math.ceil(a / b)` for
integer `a` and positive integer `b` (the JS float division followed by
`Math.ceil` equals the exact rational ceiling for the magnitudes
involved; in particular `Math.ceil` of a tiny negative quotient gives
negative zero, which compares equal to `0`, matching the exact ceiling). -/
def ceilDiv (a b : Int) : Int := -((-a).fdiv b)

/-- The deadline classification inside `getAllTodos` (lines 114-128):
start from `none`; when a deadline is present, compute
`daysUntilDeadline = Math.ceil((deadline - now) / msPerDay)` and pick
`overdue`, `due-today` or `due-soon` by its sign and size.  An absent or
falsy `deadline` (modelled as `none`) keeps the initial `none` label. -/
def deadlineStatusOf (now : Int) (deadline : Option Int) : String :=
  match deadline with
  | none => "none"
  | some d =>
    let daysUntilDeadline := ceilDiv (d - now) msPerDay
    if daysUntilDeadline < 0 then "overdue"
    else if daysUntilDeadline = 0 then "due-today"
    else if daysUntilDeadline ≤ 3 then "due-soon"
    else "none"

/-- The status filter of `getAllTodos` (lines 75-77), namely
`if (status && [...].includes(status)) query = query.where(...)`.
A missing parameter is `none`; an empty string is falsy in JS and is also
not contained in `validStatuses`, so `List.contains` models the guard
exactly. -/
def filterByStatus (status : Option String) (todos : List Todo) : List Todo :=
  match status with
  | none => todos
  | some s =>
    if validStatuses.contains s then todos.filter (fun t => t.status == s)
    else todos

/-- The `pagination` object of the list response (lines 139-146). -/
structure Pagination where
  page : Int
  limit : Int
  total : Int
  totalPages : Int
  hasNextPage : Bool
  hasPrevPage : Bool
  deriving DecidableEq

/-- A record of the `data` array of the list response: the stored
document plus the derived `deadlineStatus` field (lines 130-133). -/
structure AnnotatedTodo where
  todo : Todo
  deadlineStatus : String
  deriving DecidableEq

/-- The JSON envelope of a successful `getAllTodos` response (lines
136-147). -/
structure ListResponse where
  success : Bool
  data : List AnnotatedTodo
  pagination : Pagination
  deriving DecidableEq

/-- The page window of `getAllTodos` (lines 93-103).  When `offset > 0`
the code fetches the first `offset` documents, takes the last one and
resumes after it with `startAfter`, then reads `limitNum` documents: on
the ordered result sequence this returns the documents at positions
`offset` to `offset + limitNum - 1` (and the empty list once `offset`
reaches the end of the sequence, since resuming after the final document
yields nothing, which `drop` also models).  When `offset ≤ 0` the cursor
branch is skipped and the first `limitNum` documents are returned. -/
def pageWindow (matching : List Todo) (offset limitNum : Int) : List Todo :=
  if offset > 0 then (matching.drop offset.toNat).take limitNum.toNat
  else matching.take limitNum.toNat

/-- `getAllTodos` (lines 62-147) on the success path, for already-parsed
integer `pageNum` and `limitNum` (the code applies `parseInt` to the raw
query parameters).  `todos` is the ordered document sequence of the store
after `orderBy`; the total is the count of documents matching the
(possibly absent) status predicate, as produced by `query.count()`. -/
def getAllTodos (todos : List Todo) (status : Option String)
    (pageNum limitNum : Int) (now : Int) : ListResponse :=
  let matching := filterByStatus status todos
  let offset := (pageNum - 1) * limitNum
  let total : Int := matching.length
  let pageTodos := pageWindow matching offset limitNum
  { success := true
    data := pageTodos.map (fun t => ⟨t, deadlineStatusOf now t.deadline⟩)
    pagination :=
      { page := pageNum
        limit := limitNum
        total := total
        totalPages := ceilDiv total limitNum
        hasNextPage := decide (pageNum < ceilDiv total limitNum)
        hasPrevPage := decide (pageNum > 1) } }

/-- The overdue test of `getTodoStats` (line 297), namely
`todo.deadline && new Date(todo.deadline) < now && todo.status !== completed`. -/
def isOverdue (now : Int) (t : Todo) : Bool :=
  match t.deadline with
  | none => false
  | some d => decide (d < now) && t.status != "completed"

/-- The mutable counters of the `getTodoStats` scan (lines 279-283). -/
structure StatsAcc where
  total : Nat
  pending : Nat
  inProgress : Nat
  completed : Nat
  overdue : Nat
  deriving DecidableEq

/-- One iteration of the `snapshot.forEach` loop of `getTodoStats`
(lines 287-300). -/
def statsStep (now : Int) (acc : StatsAcc) (t : Todo) : StatsAcc :=
  let acc1 := { acc with total := acc.total + 1 }
  let acc2 :=
    if t.status == "pending" then { acc1 with pending := acc1.pending + 1 }
    else acc1
  let acc3 :=
    if t.status == "in-progress" then
      { acc2 with inProgress := acc2.inProgress + 1 }
    else acc2
  let acc4 :=
    if t.status == "completed" then
      { acc3 with completed := acc3.completed + 1 }
    else acc3
  if isOverdue now t then { acc4 with overdue := acc4.overdue + 1 } else acc4

/-- The `data` object of the stats response (lines 304-311). -/
structure Stats where
  total : Nat
  pending : Nat
  inProgress : Nat
  completed : Nat
  overdue : Nat
  completionRate : Nat
  deriving DecidableEq

/-- `Math.round((completed / total) * 100)` from line 310, for
`0 ≤ completed ≤ total` and `0 < total`: JS `Math.round` rounds half
toward positive infinity, i.e. computes the floor of `x + 1/2`, which
for the rational `(100 * completed) / total` is
`(200 * completed + total) / (2 * total)` in integer floor division.
The float evaluation is exact at this scale. -/
def jsRoundRate (completed total : Nat) : Nat :=
  (200 * completed + total) / (2 * total)

/-- `getTodoStats` (lines 275-312): a single scan over every document of
the collection accumulating the counters, then the completion rate,
which is `0` when the collection is empty (line 310). -/
def getTodoStats (todos : List Todo) (now : Int) : Stats :=
  let acc := todos.foldl (statsStep now) ⟨0, 0, 0, 0, 0⟩
  { total := acc.total
    pending := acc.pending
    inProgress := acc.inProgress
    completed := acc.completed
    overdue := acc.overdue
    completionRate :=
      if acc.total > 0 then jsRoundRate acc.completed acc.total else 0 }

/-- The observable outcome of a `deleteTodo` response (lines 244-263):
HTTP status, the `success` flag, and the error message when present. -/
structure DeleteResponse where
  status : Nat
  success : Bool
  error : Option String
  deriving DecidableEq

/-- `deleteTodo` (lines 244-263): look the document up by id; an absent
id gets a 404 response with `success: false` and the store is untouched;
otherwise the document is deleted and a 200 response with
`success: true` is sent.  The store is modelled as an association list
from document id to document data. -/
def deleteTodo (store : List (String × Todo)) (id : String) :
    DeleteResponse × List (String × Todo) :=
  match store.find? (fun p => p.1 == id) with
  | none => (⟨404, false, some ("Todo not found")⟩, store)
  | some _ => (⟨200, true, none⟩, store.filter (fun p => p.1 != id))

/-- Modelled from the spec (section 4.2): the deadline classifier stated
with the mathematical ceiling of the exact rational
`(deadline - now) / 1 day`, used to check the integer computation of the
code against the formula of the spec. -/
def classifySpec (now : Int) (deadline : Option Int) : String :=
  match deadline with
  | none => "none"
  | some d =>
    let daysUntil : Int := ⌈((d - now : Int) : ℚ) / ((msPerDay : Int) : ℚ)⌉
    if daysUntil < 0 then "overdue"
    else if daysUntil = 0 then "due-today"
    else if 0 < daysUntil ∧ daysUntil ≤ 3 then "due-soon"
    else "none"

/-- A sample stored todo used by concrete witnesses. -/
def wTodo : Todo := ⟨"a", "pending", some 0⟩

/-- A collection of 25 documents, all matching an empty status
predicate, used for the concrete pagination examples of the spec. -/
def todos25 : List Todo := (List.range 25).map (fun i => ⟨toString i, "pending", none⟩)

/-- The aggregation example of the spec, section 8: two completed
records (one of them with a past deadline), one pending record with a
past deadline, one in-progress record; evaluated at `now = 1000`. -/
def statsExample : List Todo :=
  [⟨"1", "completed", some 0⟩, ⟨"2", "completed", none⟩,
   ⟨"3", "pending", some 0⟩, ⟨"4", "in-progress", none⟩]

/-- `ceilDiv` computes the mathematical ceiling of the exact rational
quotient, for a positive divisor. -/
theorem ceilDiv_eq_ceil (a b : Int) (hb : 0 < b) :
    ceilDiv a b = ⌈(a : ℚ) / (b : ℚ)⌉ := by
  unfold ceilDiv
  rw [Int.fdiv_eq_ediv _ hb.le]
  have hbt : ((b.toNat : ℤ)) = b := Int.toNat_of_nonneg hb.le
  have h := Rat.floor_intCast_div_natCast (-a) b.toNat
  rw [hbt] at h
  have hq : ((b.toNat : ℕ) : ℚ) = (b : ℚ) := by
    exact_mod_cast congrArg (fun z : ℤ => (z : ℚ)) hbt
  rw [hq] at h
  rw [← h, Int.cast_neg, neg_div, Int.floor_neg, neg_neg]

/-- The classifier of the code agrees with the classifier written from
the words of the spec, at every deadline and every current time. -/
theorem deadlineStatusOf_eq_classifySpec (now : Int) (d : Option Int) :
    deadlineStatusOf now d = classifySpec now d := by
  cases d with
  | none => rfl
  | some d =>
    simp only [deadlineStatusOf, classifySpec]
    rw [ceilDiv_eq_ceil _ _ (by norm_num [msPerDay])]
    set c : Int := ⌈((d - now : Int) : ℚ) / ((msPerDay : Int) : ℚ)⌉ with hc
    by_cases h1 : c < 0
    · simp [h1]
    · by_cases h2 : c = 0
      · simp [h1, h2]
      · have h3 : 0 < c := lt_of_le_of_ne (not_lt.mp h1) (Ne.symm h2)
        by_cases h4 : c ≤ 3 <;> simp [h1, h2, h3, h4]

/-- Unfolding the counter loop of `getTodoStats`: the fold computes the
length and the four declarative counts, on top of any initial
accumulator. -/
theorem foldl_statsStep (now : Int) (todos : List Todo) (acc : StatsAcc) :
    todos.foldl (statsStep now) acc =
      ⟨acc.total + todos.length,
       acc.pending + todos.countP (fun t => t.status == "pending"),
       acc.inProgress + todos.countP (fun t => t.status == "in-progress"),
       acc.completed + todos.countP (fun t => t.status == "completed"),
       acc.overdue + todos.countP (isOverdue now)⟩ := by
  induction todos generalizing acc with
  | nil => simp
  | cons t ts ih =>
    rw [List.foldl_cons, ih]
    simp only [statsStep, List.countP_cons, List.length_cons]
    by_cases h1 : t.status == "pending" <;>
    by_cases h2 : t.status == "in-progress" <;>
    by_cases h3 : t.status == "completed" <;>
    by_cases h4 : isOverdue now t <;>
      simp [h1, h2, h3, h4, StatsAcc.mk.injEq] <;> omega

/-- When every status is one of the three enumerated values, the three
status counts partition the collection. -/
theorem countP_three_statuses (todos : List Todo)
    (h : ∀ t ∈ todos, t.status ∈ validStatuses) :
    todos.countP (fun t => t.status == "pending") +
      todos.countP (fun t => t.status == "in-progress") +
      todos.countP (fun t => t.status == "completed") = todos.length := by
  induction todos with
  | nil => simp
  | cons t ts ih =>
    have ht : t.status ∈ validStatuses := h t (by simp)
    have hts : ∀ x ∈ ts, x.status ∈ validStatuses := fun x hx => h x (by simp [hx])
    have ihts := ih hts
    simp only [List.countP_cons, List.length_cons]
    simp only [validStatuses, List.mem_cons, List.mem_singleton,
      List.not_mem_nil, or_false] at ht
    rcases ht with h1 | h1 | h1 <;> simp [h1] <;> omega

/-- The integer rate of the code equals the mathematical round of
`completed / total * 100`, for a nonempty collection. -/
theorem jsRoundRate_eq_round (c t : Nat) (ht : 0 < t) :
    ((jsRoundRate c t : Nat) : ℤ) = round ((c : ℚ) / (t : ℚ) * 100) := by
  unfold jsRoundRate
  rw [round_eq]
  have ht2 : (t : ℚ) ≠ 0 := Nat.cast_ne_zero.mpr ht.ne'
  have harg : (c : ℚ) / (t : ℚ) * 100 + 1 / 2 =
      (((200 * c + t : ℕ) : ℤ) : ℚ) / ((2 * t : ℕ) : ℚ) := by
    push_cast
    field_simp
    ring
  rw [harg, Rat.floor_intCast_div_natCast, ← Int.ofNat_ediv]

/-- C1: every todo returned by `getAllTodos` carries a `deadlineStatus`
computed from its deadline and the current time by the spec formula: no
deadline gives `none`; otherwise, with
`daysUntil = ceil((deadline - now) / 1 day)` over the exact rationals,
a negative `daysUntil` gives `overdue`, zero gives `due-today`, one to
three gives `due-soon`, and more than three gives `none`. -/
theorem getAllTodos_deadline_annotation (todos : List Todo) (status : Option String)
    (p l now : Int) :
    ∀ x ∈ (getAllTodos todos status p l now).data,
      x.deadlineStatus = classifySpec now x.todo.deadline := by
  intro x hx
  simp only [getAllTodos, List.mem_map] at hx
  obtain ⟨t, _, rfl⟩ := hx
  exact deadlineStatusOf_eq_classifySpec now t.deadline

/-- C1 witness: concrete instance of the annotation theorem on a
one-record collection with a deadline equal to the current time. -/
theorem getAllTodos_deadline_annotation_witness :
    (⟨wTodo, "due-today"⟩ : AnnotatedTodo).deadlineStatus =
      classifySpec 0 (⟨wTodo, "due-today"⟩ : AnnotatedTodo).todo.deadline :=
  getAllTodos_deadline_annotation [wTodo] none 1 20 0 ⟨wTodo, "due-today"⟩ (by decide)

/-- C2: for a positive page `p` and positive limit `l`, the pagination
metadata of `getAllTodos` reports `page = p`, `limit = l`, `total` equal
to the count of records matching the status predicate,
`totalPages = ceil(total / l)`, `hasNextPage` exactly when
`p < totalPages` and `hasPrevPage` exactly when `p > 1`; moreover on a
collection of 25 matching records with limit 10, page 1 returns 10
records with `hasNextPage`, no `hasPrevPage` and 3 total pages, and
page 3 returns 5 records with no next page. -/
theorem getAllTodos_pagination_metadata (todos : List Todo) (status : Option String)
    (p l now : Int) (hp : 1 ≤ p) (hl : 1 ≤ l) :
    ((getAllTodos todos status p l now).pagination.page = p ∧
     (getAllTodos todos status p l now).pagination.limit = l ∧
     (getAllTodos todos status p l now).pagination.total =
       ((filterByStatus status todos).length : Int) ∧
     (getAllTodos todos status p l now).pagination.totalPages =
       ⌈(((filterByStatus status todos).length : Int) : ℚ) / (l : ℚ)⌉ ∧
     ((getAllTodos todos status p l now).pagination.hasNextPage = true ↔
       p < ⌈(((filterByStatus status todos).length : Int) : ℚ) / (l : ℚ)⌉) ∧
     ((getAllTodos todos status p l now).pagination.hasPrevPage = true ↔ 1 < p)) ∧
    (getAllTodos todos25 none 1 10 0).data.length = 10 ∧
    (getAllTodos todos25 none 1 10 0).pagination.hasNextPage = true ∧
    (getAllTodos todos25 none 1 10 0).pagination.hasPrevPage = false ∧
    (getAllTodos todos25 none 1 10 0).pagination.totalPages = 3 ∧
    (getAllTodos todos25 none 3 10 0).data.length = 5 ∧
    (getAllTodos todos25 none 3 10 0).pagination.hasNextPage = false := by
  have hl0 : (0 : Int) < l := hl
  constructor
  · refine ⟨rfl, rfl, rfl, ?_, ?_, ?_⟩
    · exact ceilDiv_eq_ceil _ _ hl0
    · show decide (p < ceilDiv ((filterByStatus status todos).length : Int) l) = true ↔ _
      rw [ceilDiv_eq_ceil _ _ hl0]
      simp
    · show decide (p > 1) = true ↔ 1 < p
      simp
  · refine ⟨by decide, by decide, by decide, by decide, by decide, by decide⟩

/-- C2 witness: the metadata theorem applied at page 2, limit 10 on the
25-record collection. -/
theorem getAllTodos_pagination_metadata_witness :
    (getAllTodos todos25 none 2 10 0).pagination.page = 2 :=
  (getAllTodos_pagination_metadata todos25 none 2 10 0 (by norm_num) (by norm_num)).1.1

/-- C3: `getTodoStats` reports the collection size as `total`, the exact
per-status counts, and as `overdue` the number of records with a
deadline strictly before the current time whose status is not
`completed`; on the example collection (two completed, one of them with
a past deadline, one overdue pending, one in-progress) it yields
`total = 4`, `completed = 2`, `overdue = 1`. -/
theorem getTodoStats_counts (todos : List Todo) (now : Int) :
    (getTodoStats todos now).total = todos.length ∧
    (getTodoStats todos now).pending = todos.countP (fun t => t.status == "pending") ∧
    (getTodoStats todos now).inProgress =
      todos.countP (fun t => t.status == "in-progress") ∧
    (getTodoStats todos now).completed =
      todos.countP (fun t => t.status == "completed") ∧
    (getTodoStats todos now).overdue =
      todos.countP (fun t =>
        t.deadline.any (fun d => decide (d < now)) && t.status != "completed") ∧
    getTodoStats statsExample 1000 = ⟨4, 1, 1, 2, 1, 50⟩ := by
  have hfold := foldl_statsStep now todos ⟨0, 0, 0, 0, 0⟩
  have hov : (isOverdue now) = (fun t : Todo =>
      t.deadline.any (fun d => decide (d < now)) && t.status != "completed") := by
    funext t
    cases h : t.deadline <;> simp [isOverdue, h]
  refine ⟨?_, ?_, ?_, ?_, ?_, by decide⟩ <;> simp [getTodoStats, hfold, hov]

/-- C4: the completion rate of `getTodoStats` is the rounded percentage
`round(completed / total * 100)` whenever the collection is nonempty,
and `0` on the empty collection, with no division by zero. -/
theorem getTodoStats_completionRate (todos : List Todo) (now : Int) :
    (0 < (getTodoStats todos now).total →
      (((getTodoStats todos now).completionRate : Nat) : ℤ) =
        round (((getTodoStats todos now).completed : ℚ) /
          ((getTodoStats todos now).total : ℚ) * 100)) ∧
    ((getTodoStats todos now).total = 0 →
      (getTodoStats todos now).completionRate = 0) ∧
    (getTodoStats [] now).completionRate = 0 := by
  refine ⟨?_, ?_, rfl⟩
  · intro h
    have h1 : 0 < (todos.foldl (statsStep now) ⟨0, 0, 0, 0, 0⟩).total := h
    show ((if (todos.foldl (statsStep now) ⟨0, 0, 0, 0, 0⟩).total > 0 then
        jsRoundRate (todos.foldl (statsStep now) ⟨0, 0, 0, 0, 0⟩).completed
          (todos.foldl (statsStep now) ⟨0, 0, 0, 0, 0⟩).total else 0 : Nat) : ℤ) = _
    rw [if_pos h1]
    exact jsRoundRate_eq_round _ _ h1
  · intro h
    have h1 : (todos.foldl (statsStep now) ⟨0, 0, 0, 0, 0⟩).total = 0 := h
    show (if (todos.foldl (statsStep now) ⟨0, 0, 0, 0, 0⟩).total > 0 then
        jsRoundRate (todos.foldl (statsStep now) ⟨0, 0, 0, 0, 0⟩).completed
          (todos.foldl (statsStep now) ⟨0, 0, 0, 0, 0⟩).total else 0) = 0
    rw [if_neg (by omega)]

/-- C4 witness: the completion rate formula instantiated on the example
collection, where the rate is 50. -/
theorem getTodoStats_completionRate_witness :
    (((getTodoStats statsExample 1000).completionRate : Nat) : ℤ) =
      round (((getTodoStats statsExample 1000).completed : ℚ) /
        ((getTodoStats statsExample 1000).total : ℚ) * 100) :=
  (getTodoStats_completionRate statsExample 1000).1 (by decide)

/-- C5: a status filter outside the three recognised values is ignored
silently: the whole `getAllTodos` response, records and pagination
metadata alike, is the one of the same request with no status filter. -/
theorem invalid_status_filter_ignored (todos : List Todo) (s : String)
    (p l now : Int) (h : s ∉ validStatuses) :
    getAllTodos todos (some s) p l now = getAllTodos todos none p l now := by
  simp [getAllTodos, filterByStatus, h]

/-- C5 witness: the unrecognised filter value `foo` behaves as no
filter on a one-record collection. -/
theorem invalid_status_filter_ignored_witness :
    getAllTodos [wTodo] (some "foo") 1 20 0 = getAllTodos [wTodo] none 1 20 0 :=
  invalid_status_filter_ignored [wTodo] "foo" 1 20 0 (by decide)

/-- C6 counterexample: with `now = 1700000000000`, a deadline one second
earlier is classified `due-today`, not `overdue`, because the ceiling of
the tiny negative day fraction is zero; the claim that it is `overdue`
is false on the code. -/
theorem classify_one_second_early_counterexample :
    deadlineStatusOf 1700000000000 (some (1700000000000 - 1000)) = "due-today" ∧
    deadlineStatusOf 1700000000000 (some (1700000000000 - 1000)) ≠ "overdue" := by
  constructor <;> decide

/-- C6 amended: for any current time `T`, a deadline one second before
`T` is classified `due-today` (its day ceiling is zero); a deadline of
exactly `T` is `due-today`; a deadline two days after `T` is `due-soon`;
a deadline ten days after `T` is `none`. -/
theorem classify_boundary_cases (T : Int) :
    deadlineStatusOf T (some (T - 1000)) = "due-today" ∧
    deadlineStatusOf T (some T) = "due-today" ∧
    deadlineStatusOf T (some (T + 2 * msPerDay)) = "due-soon" ∧
    deadlineStatusOf T (some (T + 10 * msPerDay)) = "none" := by
  refine ⟨?_, ?_, ?_, ?_⟩
  · simp only [deadlineStatusOf]
    have e : T - 1000 - T = (-1000 : Int) := by ring
    rw [e]
    decide
  · simp only [deadlineStatusOf]
    have e : T - T = (0 : Int) := by ring
    rw [e]
    decide
  · simp only [deadlineStatusOf]
    have e : T + 2 * msPerDay - T = (2 * msPerDay : Int) := by ring
    rw [e]
    decide
  · simp only [deadlineStatusOf]
    have e : T + 10 * msPerDay - T = (10 * msPerDay : Int) := by ring
    rw [e]
    decide

/-- C7: when the offset `(p - 1) * l` of a request with positive page
and limit is at or beyond the end of the matching collection,
`getAllTodos` returns an empty page together with metadata carrying the
true total and `hasNextPage = false`. -/
theorem offset_beyond_end_empty_page (todos : List Todo) (status : Option String)
    (p l now : Int) (hp : 1 ≤ p) (hl : 1 ≤ l)
    (h : ((filterByStatus status todos).length : Int) ≤ (p - 1) * l) :
    (getAllTodos todos status p l now).data = [] ∧
    (getAllTodos todos status p l now).pagination.hasNextPage = false ∧
    (getAllTodos todos status p l now).pagination.total =
      ((filterByStatus status todos).length : Int) := by
  have hl0 : (0 : Int) < l := hl
  have hdata : pageWindow (filterByStatus status todos) ((p - 1) * l) l = [] := by
    unfold pageWindow
    by_cases ho : (p - 1) * l > 0
    · rw [if_pos ho]
      have hlen : (filterByStatus status todos).length ≤ ((p - 1) * l).toNat := by
        omega
      rw [List.drop_eq_nil_of_le hlen, List.take_nil]
    · rw [if_neg ho]
      have hoff : 0 ≤ (p - 1) * l := mul_nonneg (by omega) (by omega)
      have h1 : (filterByStatus status todos).length = 0 := by omega
      rw [List.eq_nil_of_length_eq_zero h1, List.take_nil]
  have hceil : ceilDiv ((filterByStatus status todos).length : Int) l ≤ p - 1 := by
    rw [ceilDiv_eq_ceil _ _ hl0, Int.ceil_le, div_le_iff₀ (by positivity)]
    push_cast
    exact_mod_cast h
  refine ⟨?_, ?_, rfl⟩
  · show (pageWindow (filterByStatus status todos) ((p - 1) * l) l).map _ = []
    rw [hdata, List.map_nil]
  · show decide (p < ceilDiv ((filterByStatus status todos).length : Int) l) = false
    exact decide_eq_false (by omega)

/-- C7 witness: page 4 of the 25-record collection at limit 10 is empty
with `hasNextPage = false`. -/
theorem offset_beyond_end_empty_page_witness :
    (getAllTodos todos25 none 4 10 0).data = [] ∧
    (getAllTodos todos25 none 4 10 0).pagination.hasNextPage = false ∧
    (getAllTodos todos25 none 4 10 0).pagination.total =
      ((filterByStatus none todos25).length : Int) :=
  offset_beyond_end_empty_page todos25 none 4 10 0 (by norm_num) (by norm_num) (by decide)

/-- C8 counterexample: the request with `page = 0` and `limit = 10` on
the 25-record collection is neither rejected nor clamped: it succeeds,
returns 10 records, and its metadata reports the raw page value `0`,
below the claimed minimum of 1, while the effective offset
`(0 - 1) * 10` is negative. -/
theorem page_zero_not_rejected_not_clamped :
    (getAllTodos todos25 none 0 10 0).success = true ∧
    (getAllTodos todos25 none 0 10 0).pagination.page = 0 ∧
    ¬ (1 : Int) ≤ (getAllTodos todos25 none 0 10 0).pagination.page ∧
    (getAllTodos todos25 none 0 10 0).data.length = 10 ∧
    ((0 : Int) - 1) * 10 < 0 :=
  ⟨rfl, rfl, by decide, by decide, by decide⟩

/-- C8 amended: for a non-positive page value with a positive limit,
`getAllTodos` neither rejects nor clamps: the negative offset skips the
cursor branch, so the first `limit` matching records are returned, while
the metadata echoes the raw page value and reports
`hasPrevPage = false`; non-numeric or non-positive limit values are
forwarded unvalidated to the record store, whose rejection surfaces as a
500 error. -/
theorem nonpositive_page_first_window (todos : List Todo) (status : Option String)
    (p l now : Int) (hl : 1 ≤ l) (hp : p ≤ 0) :
    (getAllTodos todos status p l now).data =
      ((filterByStatus status todos).take l.toNat).map
        (fun t => ⟨t, deadlineStatusOf now t.deadline⟩) ∧
    (getAllTodos todos status p l now).pagination.page = p ∧
    (getAllTodos todos status p l now).pagination.hasPrevPage = false := by
  have hneg : (p - 1) * l < 0 := mul_neg_of_neg_of_pos (by omega) (by omega)
  have ho : ¬ (p - 1) * l > 0 := by omega
  refine ⟨?_, rfl, ?_⟩
  · show (pageWindow (filterByStatus status todos) ((p - 1) * l) l).map _ = _
    rw [pageWindow, if_neg ho]
  · show decide (p > 1) = false
    exact decide_eq_false (by omega)

/-- C8 amended witness: the amended behavior at page 0, limit 10 on the
25-record collection. -/
theorem nonpositive_page_first_window_witness :
    (getAllTodos todos25 none 0 10 0).data =
      ((filterByStatus none todos25).take (10 : Int).toNat).map
        (fun t => ⟨t, deadlineStatusOf 0 t.deadline⟩) ∧
    (getAllTodos todos25 none 0 10 0).pagination.page = 0 ∧
    (getAllTodos todos25 none 0 10 0).pagination.hasPrevPage = false :=
  nonpositive_page_first_window todos25 none 0 10 0 (by norm_num) (by norm_num)

/-- C9: deleting an id that resolves to no stored document yields a 404
response with `success: false` and the not-found error message, and
leaves the store unchanged. -/
theorem deleteTodo_missing_id (store : List (String × Todo)) (id : String)
    (h : store.find? (fun q => q.1 == id) = none) :
    deleteTodo store id = (⟨404, false, some ("Todo not found")⟩, store) := by
  simp [deleteTodo, h]

/-- C9 witness: deleting the absent id `b` from a one-document store. -/
theorem deleteTodo_missing_id_witness :
    deleteTodo [("a", wTodo)] "b" =
      (⟨404, false, some ("Todo not found")⟩, [("a", wTodo)]) :=
  deleteTodo_missing_id [("a", wTodo)] "b" (by decide)

/-- C10: `getTodoStats` counts every record in `total`; when every
status is one of the three enumerated values the three status buckets
partition the collection, `pending + inProgress + completed = total`;
and a record with a status outside the enumeration is counted in
`total` but in no bucket, as the one-record collection with status
`archived` shows. -/
theorem getTodoStats_partition (todos : List Todo) (now : Int) :
    (getTodoStats todos now).total = todos.length ∧
    ((∀ t ∈ todos, t.status ∈ validStatuses) →
      (getTodoStats todos now).pending + (getTodoStats todos now).inProgress +
        (getTodoStats todos now).completed = (getTodoStats todos now).total) ∧
    (getTodoStats [⟨"x", "archived", none⟩] now).total = 1 ∧
    (getTodoStats [⟨"x", "archived", none⟩] now).pending = 0 ∧
    (getTodoStats [⟨"x", "archived", none⟩] now).inProgress = 0 ∧
    (getTodoStats [⟨"x", "archived", none⟩] now).completed = 0 := by
  have hfold := foldl_statsStep now todos ⟨0, 0, 0, 0, 0⟩
  refine ⟨by simp [getTodoStats, hfold], ?_, rfl, rfl, rfl, rfl⟩
  intro h
  simp only [getTodoStats, hfold]
  simpa using countP_three_statuses todos h

/-- C10 witness: the partition equality on the example collection, whose
statuses are all enumerated values. -/
theorem getTodoStats_partition_witness :
    (getTodoStats statsExample 1000).pending + (getTodoStats statsExample 1000).inProgress +
      (getTodoStats statsExample 1000).completed = (getTodoStats statsExample 1000).total :=
  (getTodoStats_partition statsExample 1000).2.1 (by decide)

end NesaTodo
